import Mathlib

/-!
Verification of the AutoScience core: the pipeline-state store
(`src/core/pipeline_state.py`), the project directory manager
(`src/core/project_manager.py`) and the script runner
(`src/core/code_runner.py`), shallowly embedded in Lean.

The on-disk state record of a project is modelled as an `Option String`
(`none` = the file `pipeline_state.txt` is absent, `some s` = the file exists
with contents `s`).  A project directory is modelled as an association list
from entry names to entries (files with string contents, or directories);
names in a real directory listing are unique.  Raised Python exceptions are
modelled as `Except.error`.
-/

namespace AutoScience

/-! ## Python string helpers

`str.strip()` with no argument removes leading and trailing whitespace
(ASCII whitespace here; all tokens used by this repository are ASCII).
`str.strip('.')` removes leading and trailing dots.
`str.replace(a, b)` for one-character `a`, `b` maps characters. -/

def pyIsSpace (c : Char) : Bool :=
  c = ' ' || c = '\t' || c = '\n' || c = '\r' || c = '\x0b' || c = '\x0c'

/-- Python `s.strip()` on a list of characters. -/
def pyStrip (s : List Char) : List Char :=
  ((s.dropWhile pyIsSpace).reverse.dropWhile pyIsSpace).reverse

/-- Python `s.strip()` on a `String`. -/
def pyStripS (s : String) : String :=
  String.mk (pyStrip s.data)

/-- Python `s.replace("/", "_").replace("\\", "_")` from `get_project_path`. -/
def replaceSeparators (s : List Char) : List Char :=
  s.map (fun c => if c = '/' || c = '\\' then '_' else c)

/-- Python `s.strip(".")` from `get_project_path`. -/
def stripDots (s : List Char) : List Char :=
  ((s.dropWhile (fun c => c = '.')).reverse.dropWhile (fun c => c = '.')).reverse

/-! ## Pipeline state store (`src/core/pipeline_state.py`) -/

/-- `VALID_STATES` from `pipeline_state.py`. -/
def VALID_STATES : List String :=
  ["Parsing Data", "Running Analysis", "Visualizing", "Reporting", "Done"]

/-- `read_state(project_path)`: return the current pipeline state; default to
the first state if the record is missing.  The record's text is stripped, and
an empty result falls back to the first state (Python
`path.read_text().strip() or VALID_STATES[0]`). -/
def read_state (record : Option String) : String :=
  match record with
  | none => VALID_STATES[0]
  | some text => if pyStripS text = "" then VALID_STATES[0] else pyStripS text

/-- `write_state(project_path, state)`: raises `ValueError` if `state` is not
one of `VALID_STATES`; otherwise replaces the whole record with `state`
(`write_text` is a single full-file replace, so the prior record is ignored). -/
def write_state (record : Option String) (state : String) :
    Except String (Option String) :=
  if state ∈ VALID_STATES then
    Except.ok (some state)
  else
    Except.error ("Invalid state: " ++ state)

/-- Python `VALID_STATES.index(current)` inside `try`/`except ValueError`:
`none` models the caught exception for an absent element. -/
def listIndex : List String → String → Option Nat
  | [], _ => none
  | a :: rest, x => if a = x then some 0 else (listIndex rest x).map (· + 1)

/-- Observable outcome of one `next_state` call: the value returned to the
caller (`none` models Python `None`), the state record after the call, and
whether `write_state` was invoked (i.e. whether a disk write happened). -/
structure AdvanceOutcome where
  ret : Option String
  record : Option String
  wrote : Bool
  deriving DecidableEq, Repr

/-- `next_state(project_path)`: read the current phase; if it is not found in
`VALID_STATES` (Python `list.index` raises `ValueError`, which is caught),
return the first state without writing; if it is the last state, return
`None` without writing; otherwise persist and return the following state. -/
def next_state (record : Option String) : Except String AdvanceOutcome :=
  let current := read_state record
  match listIndex VALID_STATES current with
  | none => Except.ok ⟨some VALID_STATES[0], record, false⟩
  | some i =>
    if VALID_STATES.length - 1 ≤ i then
      Except.ok ⟨none, record, false⟩
    else
      match VALID_STATES[i + 1]? with
      | some new_state =>
        match write_state record new_state with
        | Except.ok newRecord => Except.ok ⟨some new_state, newRecord, true⟩
        | Except.error e => Except.error e
      | none => Except.error "IndexError"

/-! ## Project directory manager (`src/core/project_manager.py`)

`get_project_path` is modelled over lists of characters (a raw name) and a
root path given as a list of path components; the returned path is the root
with one extra component. -/

/-- `get_project_path(project_name, projects_root)`:
`safe_name = project_name.strip().replace("/", "_").replace("\\", "_").strip(".")`,
raising `ValueError` when the result is empty, else returning
`root / safe_name`. -/
def safeName (project_name : List Char) : List Char :=
  stripDots (replaceSeparators (pyStrip project_name))

def get_project_path (project_name : List Char) (root : List (List Char)) :
    Except String (List (List Char)) :=
  if safeName project_name = [] then
    Except.error "project_name must be non-empty after normalization"
  else
    Except.ok (root ++ [safeName project_name])

/-- A path component that cannot alter where a path points: non-empty, free of
path separators, and not one of the special components `.` and `..`. -/
def isSafeComponent (c : List Char) : Prop :=
  c ≠ [] ∧ (∀ ch ∈ c, ch ≠ '/' ∧ ch ≠ '\\') ∧ c ≠ ['.'] ∧ c ≠ ['.', '.']

/-- `p` is strictly inside `root`: it is `root` extended by one safe
component, so resolving it cannot leave `root`. -/
def strictlyInside (root : List (List Char)) (p : List (List Char)) : Prop :=
  ∃ c, p = root ++ [c] ∧ isSafeComponent c

/-! ### Directory trees -/

/-- One entry of a directory listing. -/
inductive Entry : Type where
  | file (content : String)
  | dir (children : List (String × Entry))

/-- Contents of one directory: an association list from names to entries. -/
abbrev DirListing := List (String × Entry)

/-- Find the entry with the given name. -/
def fsLookup : DirListing → String → Option Entry
  | [], _ => none
  | (k, v) :: rest, name => if k = name then some v else fsLookup rest name

/-- Create or replace the entry with the given name. -/
def fsSet : DirListing → String → Entry → DirListing
  | [], name, e => [(name, e)]
  | (k, v) :: rest, name, e =>
    if k = name then (name, e) :: rest else (k, v) :: fsSet rest name e

/-- Delete the entry with the given name. -/
def fsErase : DirListing → String → DirListing
  | [], _ => []
  | (k, v) :: rest, name =>
    if k = name then fsErase rest name else (k, v) :: fsErase rest name

/-- `PROJECT_SUBDIRS` from `project_manager.py`. -/
def PROJECT_SUBDIRS : List String :=
  ["data", "analysis_scripts", "visualization_scripts", "reporting"]

def RESEARCH_QUESTION_FILE : String := "research_question.md"

def PIPELINE_STATE_FILE : String := "pipeline_state.txt"

/-- The placeholder written by `ProjectManager.create`. -/
def RESEARCH_QUESTION_TEMPLATE : String :=
  "# Research question\n\n<!-- Describe the goal and constraints of this research. -->\n"

/-- `(self.path / subdir).mkdir(parents=True, exist_ok=True)`: a no-op when a
directory with this name exists; `FileExistsError` when a file blocks the
name. -/
def ensureDir (l : DirListing) (name : String) : Except String DirListing :=
  match fsLookup l name with
  | none => Except.ok (fsSet l name (Entry.dir []))
  | some (Entry.dir _) => Except.ok l
  | some (Entry.file _) => Except.error "FileExistsError"

/-- The existence-gated template write in `ProjectManager.create`:
`if not research_question_path.exists(): research_question_path.write_text(...)`
(`exists()` is true for a directory as well, in which case nothing is
written). -/
def writeIfAbsent (l : DirListing) (name : String) (content : String) :
    DirListing :=
  match fsLookup l name with
  | none => fsSet l name (Entry.file content)
  | some _ => l

/-- `ProjectManager.create` (also `ensure`): `none` models an absent project
directory, which `self.path.mkdir(parents=True, exist_ok=True)` creates
empty; then every subdirectory of `PROJECT_SUBDIRS` is created if missing,
and the research-question template is written only if no such entry exists. -/
def create (project : Option DirListing) : Except String DirListing := do
  let root := project.getD []
  let root ← PROJECT_SUBDIRS.foldlM ensureDir root
  Except.ok (writeIfAbsent root RESEARCH_QUESTION_FILE RESEARCH_QUESTION_TEMPLATE)

/-- The tuple iterated over by `clear_and_rerun_project`. -/
def GENERATED_SUBDIRS : List String :=
  ["analysis_scripts", "visualization_scripts", "reporting"]

/-- Decision for one child inside a generated directory in the clearing loop
of `clear_and_rerun_project`: files (and symlinks) are unlinked, directories
are removed recursively with `shutil.rmtree`; nothing is kept. -/
def keepChild : String × Entry → Bool
  | (_, Entry.file _) => false
  | (_, Entry.dir _) => false

/-- The loop `for child in target_dir.iterdir(): ...` of
`clear_and_rerun_project`. -/
def clearChildren (children : DirListing) : DirListing :=
  children.filter keepChild

/-- One iteration of `for subdir in ("analysis_scripts", ...)`: skipped when
the directory is absent (`if not target_dir.exists(): continue`); all
children deleted when it is a directory; `iterdir()` on a file raises
`NotADirectoryError`. -/
def clearGeneratedDir (l : DirListing) (name : String) :
    Except String DirListing :=
  match fsLookup l name with
  | none => Except.ok l
  | some (Entry.dir ch) => Except.ok (fsSet l name (Entry.dir (clearChildren ch)))
  | some (Entry.file _) => Except.error "NotADirectoryError"

/-- `if pipeline_state_path.exists(): pipeline_state_path.unlink()`
(`unlink` on a directory raises `IsADirectoryError`). -/
def removeStateRecord (l : DirListing) : Except String DirListing :=
  match fsLookup l PIPELINE_STATE_FILE with
  | none => Except.ok l
  | some (Entry.file _) => Except.ok (fsErase l PIPELINE_STATE_FILE)
  | some (Entry.dir _) => Except.error "IsADirectoryError"

/-- `clear_and_rerun_project` up to the external agent invocation (prompt
building and the Codex run are an external collaborator boundary): ensure the
project structure, clear the three generated directories, delete the
phase-state record, and return the resulting project directory. -/
def clear_and_rerun_project (project : Option DirListing) :
    Except String DirListing := do
  let root ← create project
  let root ← GENERATED_SUBDIRS.foldlM clearGeneratedDir root
  removeStateRecord root

/-! ## Script runner (`src/core/code_runner.py`) -/

/-- `RunResult` from `code_runner.py`. -/
structure RunResult where
  script_path : String
  returncode : Int
  stdout : String
  stderr : String
  success : Bool
  deriving DecidableEq, Repr

/-- What the operating system does with the launched child process: it runs
to completion with an exit code and output, exceeds the timeout
(`subprocess.TimeoutExpired`), or fails to launch (any other exception). -/
inductive ProcOutcome : Type where
  | completed (returncode : Int) (stdout : String) (stderr : String)
  | timedOut
  | launchFault (message : String)
  deriving DecidableEq, Repr

/-- Python string interpolation of `self.timeout_seconds : Optional[int]`. -/
def timeoutText : Option Nat → String
  | some n => toString n
  | none => "None"

/-- `CodeRunner.run_script`: every branch, including the `except` handlers,
returns a `RunResult`; nothing is raised to the caller.  `script_exists`
models `path.exists()`, and `outcome` is what the spawned process does when
the script does exist. -/
def run_script (script_exists : Bool) (path : String)
    (timeout_seconds : Option Nat) (outcome : ProcOutcome) : RunResult :=
  if !script_exists then
    ⟨path, -1, "", "Script not found: " ++ path, false⟩
  else
    match outcome with
    | ProcOutcome.completed rc out err => ⟨path, rc, out, err, rc == 0⟩
    | ProcOutcome.timedOut =>
      ⟨path, -1, "",
       "Script timed out after " ++ timeoutText timeout_seconds ++ " seconds",
       false⟩
    | ProcOutcome.launchFault msg => ⟨path, -1, "", msg, false⟩

/-- A concrete populated project used to exercise the reset operation: all
three generated directories hold files (one also holds a subdirectory), the
phase record exists, and an unrelated file sits in the project root. -/
def sampleProject : DirListing :=
  [("data", Entry.dir [("input.csv", Entry.file "a,b\n1,2\n")]),
   ("analysis_scripts", Entry.dir
     [("analyze.py", Entry.file "print(1)\n"),
      ("helpers", Entry.dir [("util.py", Entry.file "x = 1\n")])]),
   ("visualization_scripts", Entry.dir [("plot.py", Entry.file "plot()\n")]),
   ("reporting", Entry.dir [("report.md", Entry.file "# Report\n")]),
   ("research_question.md", Entry.file "# My question\n"),
   ("pipeline_state.txt", Entry.file "Visualizing"),
   ("notes.txt", Entry.file "untouched\n")]

/-! ## Auxiliary lemmas -/

theorem listIndex_eq_none_of_not_mem (c : String) (h : c ∉ VALID_STATES) :
    listIndex VALID_STATES c = none := by
  simp [VALID_STATES] at h
  obtain ⟨h1, h2, h3, h4, h5⟩ := h
  simp [VALID_STATES, listIndex, Ne.symm h1, Ne.symm h2, Ne.symm h3, Ne.symm h4,
    Ne.symm h5]

theorem mem_replaceSeparators (s : List Char) (ch : Char)
    (h : ch ∈ replaceSeparators s) : ch ≠ '/' ∧ ch ≠ '\\' := by
  simp only [replaceSeparators, List.mem_map] at h
  obtain ⟨x, _, hx⟩ := h
  by_cases hc : x = '/' || x = '\\'
  · rw [if_pos hc] at hx; subst hx; exact ⟨by decide, by decide⟩
  · rw [if_neg hc] at hx
    subst hx
    simp at hc
    exact hc

theorem dropWhile_head_false (p : Char → Bool) :
    ∀ (l : List Char) (c : Char), (l.dropWhile p).head? = some c → p c = false := by
  intro l
  induction l with
  | nil => intro c h; simp [List.dropWhile] at h
  | cons a t ih =>
    intro c h
    by_cases hp : p a
    · rw [List.dropWhile_cons_of_pos hp] at h; exact ih c h
    · rw [List.dropWhile_cons_of_neg hp] at h
      simp only [List.head?_cons, Option.some.injEq] at h
      subst h
      simpa using hp

theorem dropWhile_is_suffix (p : Char → Bool) :
    ∀ (m : List Char), ∃ u, u ++ m.dropWhile p = m := by
  intro m
  induction m with
  | nil => exact ⟨[], rfl⟩
  | cons a t ih =>
    by_cases hp : p a
    · obtain ⟨u, hu⟩ := ih
      exact ⟨a :: u, by rw [List.dropWhile_cons_of_pos hp]; simpa using hu⟩
    · exact ⟨[], by rw [List.dropWhile_cons_of_neg hp]; rfl⟩

theorem stripDots_append (s : List Char) :
    ∃ u, s.dropWhile (fun c => c = '.') = stripDots s ++ u := by
  obtain ⟨u, hu⟩ := dropWhile_is_suffix (fun c => c = '.')
    ((s.dropWhile (fun c => c = '.')).reverse)
  refine ⟨u.reverse, ?_⟩
  have h2 := congrArg List.reverse hu
  simpa [stripDots] using h2.symm

theorem stripDots_head_ne_dot (s : List Char) (c : Char) (rest : List Char)
    (h : stripDots s = c :: rest) : ¬(c = '.') := by
  obtain ⟨u, ha⟩ := stripDots_append s
  have hh : (s.dropWhile (fun c => c = '.')).head? = some c := by
    rw [ha, h]; rfl
  have h3 := dropWhile_head_false (fun c => c = '.') s c hh
  simpa using h3

theorem mem_stripDots (s : List Char) (ch : Char) (h : ch ∈ stripDots s) :
    ch ∈ s := by
  obtain ⟨u, ha⟩ := stripDots_append s
  obtain ⟨w, hw⟩ := dropWhile_is_suffix (fun c => c = '.') s
  rw [← hw, ha]
  simp [h]

/-- A non-empty normalized name is a safe path component: the separator
replacement leaves no slash or backslash, and the dot strip guarantees the
first character is not a dot, ruling out `.` and `..`. -/
theorem safeName_isSafe (name : List Char) (h : safeName name ≠ []) :
    isSafeComponent (safeName name) := by
  refine ⟨h, ?_, ?_, ?_⟩
  · intro ch hch
    exact mem_replaceSeparators (pyStrip name) ch
      (mem_stripDots _ ch (by simpa [safeName] using hch))
  · intro hdot
    have hd := stripDots_head_ne_dot (replaceSeparators (pyStrip name)) '.' []
      (by simpa [safeName] using hdot)
    exact hd rfl
  · intro hdot
    have hd := stripDots_head_ne_dot (replaceSeparators (pyStrip name)) '.' ['.']
      (by simpa [safeName] using hdot)
    exact hd rfl

theorem get_project_path_cases (name : List Char) (root : List (List Char)) :
    get_project_path name root =
        Except.error "project_name must be non-empty after normalization" ∨
      ∃ p, get_project_path name root = Except.ok p ∧ strictlyInside root p := by
  by_cases h : safeName name = []
  · left; simp [get_project_path, h]
  · right
    refine ⟨root ++ [safeName name], by simp [get_project_path, h], ?_⟩
    exact ⟨safeName name, rfl, safeName_isSafe name h⟩

theorem get_project_path_traversal (root : List (List Char)) :
    get_project_path ['.', '.', '/', '.', '.', '/', 'e', 't', 'c'] root =
      Except.ok (root ++ [['_', '.', '.', '_', 'e', 't', 'c']]) ∧
    strictlyInside root (root ++ [['_', '.', '.', '_', 'e', 't', 'c']]) := by
  constructor
  · have h1 : safeName ['.', '.', '/', '.', '.', '/', 'e', 't', 'c'] =
        ['_', '.', '.', '_', 'e', 't', 'c'] := by decide
    simp [get_project_path, h1]
  · refine ⟨['_', '.', '.', '_', 'e', 't', 'c'], rfl, ?_⟩
    unfold isSafeComponent
    refine ⟨by decide, by decide, by decide, by decide⟩

theorem get_project_path_degenerate :
    (∀ root, get_project_path ['.', '.'] root =
      Except.error "project_name must be non-empty after normalization") ∧
    (∀ root, get_project_path ['.'] root =
      Except.error "project_name must be non-empty after normalization") ∧
    (∀ root, get_project_path [] root =
      Except.error "project_name must be non-empty after normalization") := by
  refine ⟨?_, ?_, ?_⟩ <;> intro root <;> rfl

theorem fsLookup_fsSet_self (l : DirListing) (k : String) (v : Entry) :
    fsLookup (fsSet l k v) k = some v := by
  induction l with
  | nil => simp [fsSet, fsLookup]
  | cons hd tl ih =>
    obtain ⟨k1, v1⟩ := hd
    by_cases h : k1 = k <;> simp [fsSet, fsLookup, h, ih]

theorem fsLookup_fsSet_ne (l : DirListing) (k : String) (v : Entry) (m : String)
    (h : k ≠ m) : fsLookup (fsSet l k v) m = fsLookup l m := by
  induction l with
  | nil => simp [fsSet, fsLookup, h]
  | cons hd tl ih =>
    obtain ⟨k1, v1⟩ := hd
    by_cases h1 : k1 = k
    · subst h1; simp [fsSet, fsLookup, h]
    · simp [fsSet, fsLookup, h1, ih]

theorem fsLookup_fsErase_self (l : DirListing) (k : String) :
    fsLookup (fsErase l k) k = none := by
  induction l with
  | nil => rfl
  | cons hd tl ih =>
    obtain ⟨k1, v1⟩ := hd
    by_cases h : k1 = k <;> simp [fsErase, fsLookup, h, ih]

theorem fsLookup_fsErase_ne (l : DirListing) (k : String) (m : String)
    (h : k ≠ m) : fsLookup (fsErase l k) m = fsLookup l m := by
  induction l with
  | nil => rfl
  | cons hd tl ih =>
    obtain ⟨k1, v1⟩ := hd
    by_cases h1 : k1 = k
    · subst h1
      simp [fsErase, fsLookup, h, ih]
    · by_cases h2 : k1 = m <;> simp [fsErase, fsLookup, h1, h2, ih, Ne.symm h]

theorem keepChild_false (p : String × Entry) : keepChild p = false := by
  obtain ⟨n, e⟩ := p; cases e <;> rfl

theorem clearChildren_eq_nil (ch : DirListing) : clearChildren ch = [] := by
  unfold clearChildren
  induction ch with
  | nil => rfl
  | cons a t ih =>
    rw [List.filter_cons, keepChild_false]
    simpa using ih

theorem exceptBind_ok {α β : Type} (x : Except String α) (f : α → Except String β)
    (b : β) (h : x >>= f = Except.ok b) :
    ∃ a, x = Except.ok a ∧ f a = Except.ok b := by
  cases x with
  | ok a => exact ⟨a, rfl, h⟩
  | error e => simp [Bind.bind, Except.bind] at h

theorem ensureDir_of_dir (l : DirListing) (n : String) (ch : DirListing)
    (h : fsLookup l n = some (Entry.dir ch)) : ensureDir l n = Except.ok l := by
  simp [ensureDir, h]

theorem writeIfAbsent_of_exists (l : DirListing) (n : String) (c : String)
    (e : Entry) (h : fsLookup l n = some e) : writeIfAbsent l n c = l := by
  simp [writeIfAbsent, h]

theorem ensureDir_spec (l : DirListing) (n : String)
    (h : ∀ c, fsLookup l n ≠ some (Entry.file c)) :
    ∃ l2, ensureDir l n = Except.ok l2 ∧
      (∃ ch, fsLookup l2 n = some (Entry.dir ch)) ∧
      (∀ m, m ≠ n → fsLookup l2 m = fsLookup l m) := by
  unfold ensureDir
  cases hl : fsLookup l n with
  | none =>
    exact ⟨fsSet l n (Entry.dir []), rfl, ⟨[], fsLookup_fsSet_self l n _⟩,
      fun m hm => fsLookup_fsSet_ne l n _ m (fun e => hm e.symm)⟩
  | some e =>
    cases e with
    | file c => exact absurd hl (h c)
    | dir ch => exact ⟨l, rfl, ⟨ch, hl⟩, fun m hm => rfl⟩

theorem ensureDir_ok_lookups (l : DirListing) (n : String) (l2 : DirListing)
    (h : ensureDir l n = Except.ok l2) :
    (∃ ch, fsLookup l2 n = some (Entry.dir ch)) ∧
    (∀ m, m ≠ n → fsLookup l2 m = fsLookup l m) := by
  unfold ensureDir at h
  cases hl : fsLookup l n with
  | none =>
    rw [hl] at h
    injection h with h
    subst h
    exact ⟨⟨[], fsLookup_fsSet_self l n _⟩,
      fun m hm => fsLookup_fsSet_ne l n _ m (fun e => hm e.symm)⟩
  | some e =>
    cases e with
    | file c => rw [hl] at h; exact absurd h (by simp)
    | dir ch =>
      rw [hl] at h
      injection h with h
      subst h
      exact ⟨⟨ch, hl⟩, fun m hm => rfl⟩

theorem writeIfAbsent_lookups (l : DirListing) (n : String) (c : String) :
    (∀ m, m ≠ n → fsLookup (writeIfAbsent l n c) m = fsLookup l m) ∧
    (∃ e, fsLookup (writeIfAbsent l n c) n = some e) := by
  unfold writeIfAbsent
  cases hl : fsLookup l n with
  | none =>
    exact ⟨fun m hm => fsLookup_fsSet_ne l n _ m (fun e => hm e.symm),
      ⟨Entry.file c, fsLookup_fsSet_self l n _⟩⟩
  | some e => exact ⟨fun m hm => rfl, ⟨e, hl⟩⟩

theorem clearGeneratedDir_of_dir (l : DirListing) (n : String) (ch : DirListing)
    (h : fsLookup l n = some (Entry.dir ch)) :
    clearGeneratedDir l n = Except.ok (fsSet l n (Entry.dir [])) := by
  simp [clearGeneratedDir, h, clearChildren_eq_nil]

theorem create_of_complete (l : DirListing)
    (h1 : ∃ ch, fsLookup l "data" = some (Entry.dir ch))
    (h2 : ∃ ch, fsLookup l "analysis_scripts" = some (Entry.dir ch))
    (h3 : ∃ ch, fsLookup l "visualization_scripts" = some (Entry.dir ch))
    (h4 : ∃ ch, fsLookup l "reporting" = some (Entry.dir ch))
    (h5 : ∃ e, fsLookup l RESEARCH_QUESTION_FILE = some e) :
    create (some l) = Except.ok l := by
  obtain ⟨c1, h1⟩ := h1
  obtain ⟨c2, h2⟩ := h2
  obtain ⟨c3, h3⟩ := h3
  obtain ⟨c4, h4⟩ := h4
  obtain ⟨e5, h5⟩ := h5
  simp [create, PROJECT_SUBDIRS, List.foldlM, Bind.bind, Except.bind, pure,
    Except.pure,
    ensureDir_of_dir l _ _ h1, ensureDir_of_dir l _ _ h2,
    ensureDir_of_dir l _ _ h3, ensureDir_of_dir l _ _ h4,
    writeIfAbsent_of_exists l _ _ _ h5]

theorem create_ok_decomp (X : Option DirListing) (r : DirListing)
    (h : create X = Except.ok r) :
    ∃ l1 l2 l3 l4,
      ensureDir (X.getD []) "data" = Except.ok l1 ∧
      ensureDir l1 "analysis_scripts" = Except.ok l2 ∧
      ensureDir l2 "visualization_scripts" = Except.ok l3 ∧
      ensureDir l3 "reporting" = Except.ok l4 ∧
      r = writeIfAbsent l4 RESEARCH_QUESTION_FILE RESEARCH_QUESTION_TEMPLATE := by
  unfold create at h
  simp only [PROJECT_SUBDIRS, List.foldlM] at h
  obtain ⟨a, ha, h⟩ := exceptBind_ok _ _ _ h
  obtain ⟨l1, e1, ha⟩ := exceptBind_ok _ _ _ ha
  obtain ⟨l2, e2, ha⟩ := exceptBind_ok _ _ _ ha
  obtain ⟨l3, e3, ha⟩ := exceptBind_ok _ _ _ ha
  obtain ⟨l4, e4, ha⟩ := exceptBind_ok _ _ _ ha
  refine ⟨l1, l2, l3, l4, e1, e2, e3, e4, ?_⟩
  simp only [pure, Except.pure, Except.ok.injEq] at ha
  subst ha
  simp only [Except.ok.injEq] at h
  exact h.symm

theorem create_ok_complete (X : Option DirListing) (r : DirListing)
    (h : create X = Except.ok r) :
    (∃ ch, fsLookup r "data" = some (Entry.dir ch)) ∧
    (∃ ch, fsLookup r "analysis_scripts" = some (Entry.dir ch)) ∧
    (∃ ch, fsLookup r "visualization_scripts" = some (Entry.dir ch)) ∧
    (∃ ch, fsLookup r "reporting" = some (Entry.dir ch)) ∧
    (∃ e, fsLookup r RESEARCH_QUESTION_FILE = some e) := by
  obtain ⟨l1, l2, l3, l4, e1, e2, e3, e4, hr⟩ := create_ok_decomp X r h
  obtain ⟨d1, p1⟩ := ensureDir_ok_lookups _ _ _ e1
  obtain ⟨d2, p2⟩ := ensureDir_ok_lookups _ _ _ e2
  obtain ⟨d3, p3⟩ := ensureDir_ok_lookups _ _ _ e3
  obtain ⟨d4, p4⟩ := ensureDir_ok_lookups _ _ _ e4
  obtain ⟨pw, dw⟩ := writeIfAbsent_lookups l4 RESEARCH_QUESTION_FILE
    RESEARCH_QUESTION_TEMPLATE
  subst hr
  refine ⟨?_, ?_, ?_, ?_, dw⟩
  · rw [pw _ (by decide), p4 _ (by decide), p3 _ (by decide), p2 _ (by decide)]
    exact d1
  · rw [pw _ (by decide), p4 _ (by decide), p3 _ (by decide)]
    exact d2
  · rw [pw _ (by decide), p4 _ (by decide)]
    exact d3
  · rw [pw _ (by decide)]
    exact d4

theorem create_rq_content (l : DirListing) (r : DirListing)
    (h : create (some l) = Except.ok r) :
    fsLookup r RESEARCH_QUESTION_FILE =
      some ((fsLookup l RESEARCH_QUESTION_FILE).getD
        (Entry.file RESEARCH_QUESTION_TEMPLATE)) := by
  obtain ⟨l1, l2, l3, l4, e1, e2, e3, e4, hr⟩ := create_ok_decomp (some l) r h
  obtain ⟨_, p1⟩ := ensureDir_ok_lookups _ _ _ e1
  obtain ⟨_, p2⟩ := ensureDir_ok_lookups _ _ _ e2
  obtain ⟨_, p3⟩ := ensureDir_ok_lookups _ _ _ e3
  obtain ⟨_, p4⟩ := ensureDir_ok_lookups _ _ _ e4
  have hl4 : fsLookup l4 RESEARCH_QUESTION_FILE =
      fsLookup l RESEARCH_QUESTION_FILE := by
    rw [p4 _ (by decide), p3 _ (by decide), p2 _ (by decide), p1 _ (by decide)]
    rfl
  subst hr
  cases hq : fsLookup l RESEARCH_QUESTION_FILE with
  | none =>
    have hl4n : fsLookup l4 RESEARCH_QUESTION_FILE = none := by rw [hl4, hq]
    simp [writeIfAbsent, hl4n, fsLookup_fsSet_self]
  | some e =>
    have hl4s : fsLookup l4 RESEARCH_QUESTION_FILE = some e := by rw [hl4, hq]
    simp [writeIfAbsent, hl4s]

theorem create_spec (l : DirListing)
    (hnf : ∀ d ∈ PROJECT_SUBDIRS, ∀ c, fsLookup l d ≠ some (Entry.file c)) :
    ∃ r, create (some l) = Except.ok r ∧
      (∃ ch, fsLookup r "analysis_scripts" = some (Entry.dir ch)) ∧
      (∃ ch, fsLookup r "visualization_scripts" = some (Entry.dir ch)) ∧
      (∃ ch, fsLookup r "reporting" = some (Entry.dir ch)) ∧
      (∀ m, m ∉ PROJECT_SUBDIRS → m ≠ RESEARCH_QUESTION_FILE →
        fsLookup r m = fsLookup l m) := by
  obtain ⟨l1, e1, d1, p1⟩ := ensureDir_spec l "data" (hnf "data" (by decide))
  obtain ⟨l2, e2, d2, p2⟩ := ensureDir_spec l1 "analysis_scripts"
    (fun c hc => hnf "analysis_scripts" (by decide) c
      (by rw [← p1 "analysis_scripts" (by decide)]; exact hc))
  obtain ⟨l3, e3, d3, p3⟩ := ensureDir_spec l2 "visualization_scripts"
    (fun c hc => hnf "visualization_scripts" (by decide) c
      (by rw [← p1 "visualization_scripts" (by decide),
              ← p2 "visualization_scripts" (by decide)]; exact hc))
  obtain ⟨l4, e4, d4, p4⟩ := ensureDir_spec l3 "reporting"
    (fun c hc => hnf "reporting" (by decide) c
      (by rw [← p1 "reporting" (by decide), ← p2 "reporting" (by decide),
              ← p3 "reporting" (by decide)]; exact hc))
  obtain ⟨pw, dw⟩ := writeIfAbsent_lookups l4 RESEARCH_QUESTION_FILE
    RESEARCH_QUESTION_TEMPLATE
  refine ⟨writeIfAbsent l4 RESEARCH_QUESTION_FILE RESEARCH_QUESTION_TEMPLATE,
    ?_, ?_, ?_, ?_, ?_⟩
  · simp [create, PROJECT_SUBDIRS, List.foldlM, Bind.bind, Except.bind, pure,
      Except.pure, e1, e2, e3, e4]
  · rw [pw _ (by decide), p4 _ (by decide), p3 _ (by decide)]
    exact d2
  · rw [pw _ (by decide), p4 _ (by decide)]
    exact d3
  · rw [pw _ (by decide)]
    exact d4
  · intro m hm hq
    simp [PROJECT_SUBDIRS] at hm
    obtain ⟨m1, m2, m3, m4⟩ := hm
    rw [pw _ hq, p4 _ m4, p3 _ m3, p2 _ m2, p1 _ m1]

theorem foldClear_of_dirs (l : DirListing) (a v r : DirListing)
    (ha : fsLookup l "analysis_scripts" = some (Entry.dir a))
    (hv : fsLookup l "visualization_scripts" = some (Entry.dir v))
    (hr : fsLookup l "reporting" = some (Entry.dir r)) :
    GENERATED_SUBDIRS.foldlM clearGeneratedDir l =
      Except.ok (fsSet (fsSet (fsSet l "analysis_scripts" (Entry.dir []))
        "visualization_scripts" (Entry.dir [])) "reporting" (Entry.dir [])) := by
  have c1 := clearGeneratedDir_of_dir l "analysis_scripts" a ha
  have hv1 : fsLookup (fsSet l "analysis_scripts" (Entry.dir []))
      "visualization_scripts" = some (Entry.dir v) := by
    rw [fsLookup_fsSet_ne l _ _ _ (by decide)]; exact hv
  have c2 := clearGeneratedDir_of_dir _ "visualization_scripts" v hv1
  have hr1 : fsLookup (fsSet (fsSet l "analysis_scripts" (Entry.dir []))
      "visualization_scripts" (Entry.dir [])) "reporting" = some (Entry.dir r) := by
    rw [fsLookup_fsSet_ne _ _ _ _ (by decide),
        fsLookup_fsSet_ne _ _ _ _ (by decide)]
    exact hr
  have c3 := clearGeneratedDir_of_dir _ "reporting" r hr1
  simp [GENERATED_SUBDIRS, List.foldlM, Bind.bind, Except.bind, pure,
    Except.pure, c1, c2, c3]

/-! ## Claims -/

/-- C1: on a project whose three generated directories are populated and whose
phase record exists, the reset operation succeeds, leaves `data/` and
`research_question.md` unchanged entry-for-entry, leaves the three generated
directories existing but empty, removes the phase-state record, and changes
no entry outside those three directories and that record. -/
theorem clear_and_rerun_frame (l : DirListing) (dataCh aCh vCh rCh : DirListing)
    (q st : String)
    (hdata : fsLookup l "data" = some (Entry.dir dataCh))
    (ha : fsLookup l "analysis_scripts" = some (Entry.dir aCh))
    (hv : fsLookup l "visualization_scripts" = some (Entry.dir vCh))
    (hr : fsLookup l "reporting" = some (Entry.dir rCh))
    (hq : fsLookup l RESEARCH_QUESTION_FILE = some (Entry.file q))
    (hs : fsLookup l PIPELINE_STATE_FILE = some (Entry.file st)) :
    ∃ res, clear_and_rerun_project (some l) = Except.ok res ∧
      fsLookup res "data" = some (Entry.dir dataCh) ∧
      fsLookup res RESEARCH_QUESTION_FILE = some (Entry.file q) ∧
      fsLookup res "analysis_scripts" = some (Entry.dir []) ∧
      fsLookup res "visualization_scripts" = some (Entry.dir []) ∧
      fsLookup res "reporting" = some (Entry.dir []) ∧
      fsLookup res PIPELINE_STATE_FILE = none ∧
      (∀ m, m ∉ GENERATED_SUBDIRS → m ≠ PIPELINE_STATE_FILE →
        fsLookup res m = fsLookup l m) := by
  have hcreate : create (some l) = Except.ok l :=
    create_of_complete l ⟨_, hdata⟩ ⟨_, ha⟩ ⟨_, hv⟩ ⟨_, hr⟩ ⟨_, hq⟩
  have hfold := foldClear_of_dirs l aCh vCh rCh ha hv hr
  set l3 := fsSet (fsSet (fsSet l "analysis_scripts" (Entry.dir []))
    "visualization_scripts" (Entry.dir [])) "reporting" (Entry.dir []) with hl3
  have hlook3 : ∀ m, m ≠ "analysis_scripts" → m ≠ "visualization_scripts" →
      m ≠ "reporting" → fsLookup l3 m = fsLookup l m := by
    intro m m1 m2 m3
    rw [hl3, fsLookup_fsSet_ne _ _ _ _ (Ne.symm m3),
        fsLookup_fsSet_ne _ _ _ _ (Ne.symm m2),
        fsLookup_fsSet_ne _ _ _ _ (Ne.symm m1)]
  have hs3 : fsLookup l3 PIPELINE_STATE_FILE = some (Entry.file st) := by
    rw [hlook3 _ (by decide) (by decide) (by decide)]; exact hs
  have hrm : removeStateRecord l3 = Except.ok (fsErase l3 PIPELINE_STATE_FILE) := by
    simp [removeStateRecord, hs3]
  refine ⟨fsErase l3 PIPELINE_STATE_FILE, ?_, ?_, ?_, ?_, ?_, ?_, ?_, ?_⟩
  · simp [clear_and_rerun_project, Bind.bind, Except.bind, hcreate, hfold, hrm]
  · rw [fsLookup_fsErase_ne _ _ _ (by decide),
        hlook3 _ (by decide) (by decide) (by decide)]
    exact hdata
  · rw [fsLookup_fsErase_ne _ _ _ (by decide),
        hlook3 _ (by decide) (by decide) (by decide)]
    exact hq
  · rw [fsLookup_fsErase_ne _ _ _ (by decide), hl3,
        fsLookup_fsSet_ne _ _ _ _ (by decide),
        fsLookup_fsSet_ne _ _ _ _ (by decide), fsLookup_fsSet_self]
  · rw [fsLookup_fsErase_ne _ _ _ (by decide), hl3,
        fsLookup_fsSet_ne _ _ _ _ (by decide), fsLookup_fsSet_self]
  · rw [fsLookup_fsErase_ne _ _ _ (by decide), hl3, fsLookup_fsSet_self]
  · exact fsLookup_fsErase_self l3 PIPELINE_STATE_FILE
  · intro m hm hmp
    simp [GENERATED_SUBDIRS] at hm
    obtain ⟨m1, m2, m3⟩ := hm
    rw [fsLookup_fsErase_ne _ _ _ (Ne.symm hmp), hlook3 m m1 m2 m3]

/-- C1 witness: the frame theorem applied to a concrete populated project. -/
theorem clear_and_rerun_frame_witness :
    ∃ res, clear_and_rerun_project (some sampleProject) = Except.ok res ∧
      fsLookup res "data" =
        some (Entry.dir [("input.csv", Entry.file "a,b\n1,2\n")]) ∧
      fsLookup res RESEARCH_QUESTION_FILE =
        some (Entry.file "# My question\n") ∧
      fsLookup res "analysis_scripts" = some (Entry.dir []) ∧
      fsLookup res "visualization_scripts" = some (Entry.dir []) ∧
      fsLookup res "reporting" = some (Entry.dir []) ∧
      fsLookup res PIPELINE_STATE_FILE = none ∧
      (∀ m, m ∉ GENERATED_SUBDIRS → m ≠ PIPELINE_STATE_FILE →
        fsLookup res m = fsLookup sampleProject m) :=
  clear_and_rerun_frame sampleProject
    [("input.csv", Entry.file "a,b\n1,2\n")]
    [("analyze.py", Entry.file "print(1)\n"),
     ("helpers", Entry.dir [("util.py", Entry.file "x = 1\n")])]
    [("plot.py", Entry.file "plot()\n")]
    [("report.md", Entry.file "# Report\n")]
    "# My question\n" "Visualizing" rfl rfl rfl rfl rfl rfl

/-- C2: from a project with no phase record, four successive `next_state`
calls persist and return "Running Analysis", "Visualizing", "Reporting" and
"Done" in order — so "Done" is reached after exactly four calls — and a
fifth call returns the `none` sentinel (distinct from every real phase)
without writing. -/
theorem advance_reaches_done_in_four :
    next_state none =
      Except.ok ⟨some "Running Analysis", some "Running Analysis", true⟩ ∧
    next_state (some "Running Analysis") =
      Except.ok ⟨some "Visualizing", some "Visualizing", true⟩ ∧
    next_state (some "Visualizing") =
      Except.ok ⟨some "Reporting", some "Reporting", true⟩ ∧
    next_state (some "Reporting") =
      Except.ok ⟨some "Done", some "Done", true⟩ ∧
    next_state (some "Done") = Except.ok ⟨none, some "Done", false⟩ ∧
    (∀ s : String, (none : Option String) ≠ some s) :=
  ⟨rfl, rfl, rfl, rfl, rfl, fun s h => Option.noConfusion h⟩

/-- C2 witness: the sentinel is distinct from a concrete real phase. -/
theorem advance_reaches_done_in_four_witness :
    (none : Option String) ≠ some "Done" :=
  advance_reaches_done_in_four.2.2.2.2.2 "Done"

/-- C3 counterexample: the claim says `path_for("..", root)` resolves to a
path strictly inside `root`, but the code strips the dots to the empty name
and raises the empty-name `ValueError` instead. -/
theorem path_for_dotdot_counterexample :
    get_project_path ['.', '.'] [['p', 'r', 'o', 'j', 'e', 'c', 't', 's']] =
      Except.error "project_name must be non-empty after normalization" := rfl

/-- C3 amended: every name either fails with the empty-name fault or resolves
strictly inside the root; `"../../etc"` resolves inside the root (as
`"_.._etc"`), while `".."`, `"."` and `""` all fail with the empty-name
fault. -/
theorem path_for_safe_amended :
    (∀ name root, get_project_path name root =
        Except.error "project_name must be non-empty after normalization" ∨
      ∃ p, get_project_path name root = Except.ok p ∧ strictlyInside root p) ∧
    (∀ root, get_project_path ['.', '.', '/', '.', '.', '/', 'e', 't', 'c'] root =
        Except.ok (root ++ [['_', '.', '.', '_', 'e', 't', 'c']]) ∧
      strictlyInside root (root ++ [['_', '.', '.', '_', 'e', 't', 'c']])) ∧
    (∀ root, get_project_path ['.', '.'] root =
      Except.error "project_name must be non-empty after normalization") ∧
    (∀ root, get_project_path ['.'] root =
      Except.error "project_name must be non-empty after normalization") ∧
    (∀ root, get_project_path [] root =
      Except.error "project_name must be non-empty after normalization") :=
  ⟨get_project_path_cases, get_project_path_traversal,
   get_project_path_degenerate.1, get_project_path_degenerate.2.1,
   get_project_path_degenerate.2.2⟩

/-- C3 witness: the traversal name resolved inside a concrete root. -/
theorem path_for_safe_amended_witness :
    get_project_path ['.', '.', '/', '.', '.', '/', 'e', 't', 'c'] [['p']] =
      Except.ok ([['p']] ++ [['_', '.', '.', '_', 'e', 't', 'c']]) ∧
    strictlyInside [['p']] ([['p']] ++ [['_', '.', '.', '_', 'e', 't', 'c']]) :=
  path_for_safe_amended.2.1 [['p']]

/-- C4: `write_state` fails with the invalid-phase error exactly when the
given string is not one of the five phases, and on a valid phase it replaces
the whole record with exactly that phase, whatever the prior record was. -/
theorem write_state_rejects_invalid (record : Option String) (s : String) :
    ((∃ e, write_state record s = Except.error e) ↔ s ∉ VALID_STATES) ∧
    (s ∈ VALID_STATES → write_state record s = Except.ok (some s)) := by
  unfold write_state
  by_cases h : s ∈ VALID_STATES <;> simp [h]

/-- C4 witness: a valid phase overwrites a prior record. -/
theorem write_state_rejects_invalid_witness :
    write_state (some "Parsing Data") "Running Analysis" =
      Except.ok (some "Running Analysis") :=
  (write_state_rejects_invalid (some "Parsing Data") "Running Analysis").2
    (by decide)

/-- C5: `read_state` returns the first phase on a missing record and on a
record that is empty after trimming, and otherwise returns the stripped
record contents — for an arbitrary token as well, so it never fails. -/
theorem read_state_defaults :
    read_state none = "Parsing Data" ∧
    (∀ s, pyStripS s = "" → read_state (some s) = "Parsing Data") ∧
    (∀ s, pyStripS s ≠ "" → read_state (some s) = pyStripS s) := by
  refine ⟨rfl, ?_, ?_⟩ <;> intro s h <;> simp [read_state, h, VALID_STATES]

/-- C5 witness: a record with surrounding whitespace reads back stripped. -/
theorem read_state_defaults_witness :
    pyStripS "  Visualizing " ≠ "" ∧
    read_state (some "  Visualizing ") = pyStripS "  Visualizing " :=
  ⟨by decide, read_state_defaults.2.2 "  Visualizing " (by decide)⟩

/-- C6: when the persisted record holds a non-empty token that is not one of
the five phases, `next_state` does not fail: it returns the first phase and
leaves the record untouched, performing no write. -/
theorem next_state_unknown_token_recovers (s : String)
    (hne : pyStripS s ≠ "") (hinv : pyStripS s ∉ VALID_STATES) :
    next_state (some s) = Except.ok ⟨some "Parsing Data", some s, false⟩ := by
  have hread : read_state (some s) = pyStripS s := by simp [read_state, hne]
  have hidx := listIndex_eq_none_of_not_mem _ hinv
  simp only [next_state, hread, hidx]
  rfl

/-- C6 witness: a corrupt record token recovers to the first phase. -/
theorem next_state_unknown_token_recovers_witness :
    pyStripS "garbage" ≠ "" ∧ pyStripS "garbage" ∉ VALID_STATES ∧
    next_state (some "garbage") =
      Except.ok ⟨some "Parsing Data", some "garbage", false⟩ :=
  ⟨by decide, by decide,
   next_state_unknown_token_recovers "garbage" (by decide) (by decide)⟩

/-- C7: on a fresh project, `create` builds the root, the four required
subdirectories and the template research-question file; any successful
`create` result is a fixed point of `create` (idempotence), and the
template is written exactly when no research-question entry existed. -/
theorem create_idempotent :
    (create none = Except.ok
      [("data", Entry.dir []), ("analysis_scripts", Entry.dir []),
       ("visualization_scripts", Entry.dir []), ("reporting", Entry.dir []),
       ("research_question.md", Entry.file RESEARCH_QUESTION_TEMPLATE)]) ∧
    (∀ project r, create project = Except.ok r →
      create (some r) = Except.ok r) ∧
    (∀ l r, create (some l) = Except.ok r →
      fsLookup l RESEARCH_QUESTION_FILE = none →
      fsLookup r RESEARCH_QUESTION_FILE =
        some (Entry.file RESEARCH_QUESTION_TEMPLATE)) ∧
    (∀ l r e, create (some l) = Except.ok r →
      fsLookup l RESEARCH_QUESTION_FILE = some e →
      fsLookup r RESEARCH_QUESTION_FILE = some e) := by
  refine ⟨rfl, ?_, ?_, ?_⟩
  · intro X r h
    obtain ⟨g1, g2, g3, g4, g5⟩ := create_ok_complete X r h
    exact create_of_complete r g1 g2 g3 g4 g5
  · intro l r h hq
    rw [create_rq_content l r h, hq]
    rfl
  · intro l r e h hq
    rw [create_rq_content l r h, hq]
    rfl

/-- C7 witness: a second `create` on the freshly created project returns it
unchanged. -/
theorem create_idempotent_witness :
    create (some [("data", Entry.dir []), ("analysis_scripts", Entry.dir []),
      ("visualization_scripts", Entry.dir []), ("reporting", Entry.dir []),
      ("research_question.md", Entry.file RESEARCH_QUESTION_TEMPLATE)]) =
    Except.ok [("data", Entry.dir []), ("analysis_scripts", Entry.dir []),
      ("visualization_scripts", Entry.dir []), ("reporting", Entry.dir []),
      ("research_question.md", Entry.file RESEARCH_QUESTION_TEMPLATE)] :=
  create_idempotent.2.1 none _ rfl

/-- C8: on a project where one or more generated directories are absent (and
no required name is blocked by a file, nor the state-record name by a
directory), the reset operation completes without fault. -/
theorem clear_and_rerun_tolerates_missing_dirs (l : DirListing)
    (hmiss : ∃ d ∈ GENERATED_SUBDIRS, fsLookup l d = none)
    (hnf : ∀ d ∈ PROJECT_SUBDIRS, ∀ c, fsLookup l d ≠ some (Entry.file c))
    (hst : ∀ ch, fsLookup l PIPELINE_STATE_FILE ≠ some (Entry.dir ch)) :
    ∃ res, clear_and_rerun_project (some l) = Except.ok res := by
  obtain ⟨r0, hc, ⟨a, ha⟩, ⟨v, hv⟩, ⟨r, hr⟩, hpres⟩ := create_spec l hnf
  have hfold := foldClear_of_dirs r0 a v r ha hv hr
  set r3 := fsSet (fsSet (fsSet r0 "analysis_scripts" (Entry.dir []))
    "visualization_scripts" (Entry.dir [])) "reporting" (Entry.dir []) with hr3
  have hs3 : fsLookup r3 PIPELINE_STATE_FILE = fsLookup l PIPELINE_STATE_FILE := by
    rw [hr3, fsLookup_fsSet_ne _ _ _ _ (by decide),
        fsLookup_fsSet_ne _ _ _ _ (by decide),
        fsLookup_fsSet_ne _ _ _ _ (by decide),
        hpres PIPELINE_STATE_FILE (by decide) (by decide)]
  cases hsl : fsLookup l PIPELINE_STATE_FILE with
  | none =>
    refine ⟨r3, ?_⟩
    simp [clear_and_rerun_project, Bind.bind, Except.bind, hc, hfold,
      removeStateRecord, hs3, hsl]
  | some e =>
    cases e with
    | file c =>
      refine ⟨fsErase r3 PIPELINE_STATE_FILE, ?_⟩
      simp [clear_and_rerun_project, Bind.bind, Except.bind, hc, hfold,
        removeStateRecord, hs3, hsl]
    | dir ch => exact absurd hsl (hst ch)

/-- C8 witness: a project missing all three generated directories resets
without fault. -/
theorem clear_and_rerun_tolerates_missing_dirs_witness :
    ∃ res, clear_and_rerun_project
      (some [("data", Entry.dir []),
             ("research_question.md", Entry.file "# Q\n")]) =
      Except.ok res :=
  clear_and_rerun_tolerates_missing_dirs
    [("data", Entry.dir []), ("research_question.md", Entry.file "# Q\n")]
    ⟨"analysis_scripts", by decide, rfl⟩
    (by
      intro d hd c hc
      simp [PROJECT_SUBDIRS] at hd
      rcases hd with rfl | rfl | rfl | rfl <;> simp [fsLookup] at hc)
    (fun ch hc => Option.noConfusion hc)

/-- C9: `run_script` never raises: a missing script yields a synthetic
failure result (exit code -1, descriptive stderr, success false), a timeout
yields the same shape with its distinct message, any other launch fault is
captured into the result, and in every returned result the success flag
equals (exit code == 0). -/
theorem run_script_never_raises :
    (∀ path t oc, run_script false path t oc =
      ⟨path, -1, "", "Script not found: " ++ path, false⟩) ∧
    (∀ path t, run_script true path t ProcOutcome.timedOut =
      ⟨path, -1, "",
       "Script timed out after " ++ timeoutText t ++ " seconds", false⟩) ∧
    (∀ path t msg, run_script true path t (ProcOutcome.launchFault msg) =
      ⟨path, -1, "", msg, false⟩) ∧
    (∀ ex path t oc, (run_script ex path t oc).success =
      ((run_script ex path t oc).returncode == 0)) := by
  refine ⟨fun path t oc => rfl, fun path t => rfl, fun path t msg => rfl, ?_⟩
  intro ex path t oc
  cases ex <;> cases oc <;> simp [run_script]

/-- C10: resetting a project whose directory does not exist first creates the
full structure via `ensure` and then clears it, so the call succeeds and
afterwards all four subdirectories exist, the three generated ones are
empty, the template research-question file exists, and no phase record. -/
theorem clear_and_rerun_missing_project :
    clear_and_rerun_project none = Except.ok
      [("data", Entry.dir []), ("analysis_scripts", Entry.dir []),
       ("visualization_scripts", Entry.dir []), ("reporting", Entry.dir []),
       ("research_question.md", Entry.file RESEARCH_QUESTION_TEMPLATE)] ∧
    fsLookup [("data", Entry.dir []), ("analysis_scripts", Entry.dir []),
       ("visualization_scripts", Entry.dir []), ("reporting", Entry.dir []),
       ("research_question.md", Entry.file RESEARCH_QUESTION_TEMPLATE)]
      "data" = some (Entry.dir []) ∧
    fsLookup [("data", Entry.dir []), ("analysis_scripts", Entry.dir []),
       ("visualization_scripts", Entry.dir []), ("reporting", Entry.dir []),
       ("research_question.md", Entry.file RESEARCH_QUESTION_TEMPLATE)]
      "analysis_scripts" = some (Entry.dir []) ∧
    fsLookup [("data", Entry.dir []), ("analysis_scripts", Entry.dir []),
       ("visualization_scripts", Entry.dir []), ("reporting", Entry.dir []),
       ("research_question.md", Entry.file RESEARCH_QUESTION_TEMPLATE)]
      "visualization_scripts" = some (Entry.dir []) ∧
    fsLookup [("data", Entry.dir []), ("analysis_scripts", Entry.dir []),
       ("visualization_scripts", Entry.dir []), ("reporting", Entry.dir []),
       ("research_question.md", Entry.file RESEARCH_QUESTION_TEMPLATE)]
      "reporting" = some (Entry.dir []) ∧
    fsLookup [("data", Entry.dir []), ("analysis_scripts", Entry.dir []),
       ("visualization_scripts", Entry.dir []), ("reporting", Entry.dir []),
       ("research_question.md", Entry.file RESEARCH_QUESTION_TEMPLATE)]
      RESEARCH_QUESTION_FILE = some (Entry.file RESEARCH_QUESTION_TEMPLATE) ∧
    fsLookup [("data", Entry.dir []), ("analysis_scripts", Entry.dir []),
       ("visualization_scripts", Entry.dir []), ("reporting", Entry.dir []),
       ("research_question.md", Entry.file RESEARCH_QUESTION_TEMPLATE)]
      PIPELINE_STATE_FILE = none :=
  ⟨rfl, rfl, rfl, rfl, rfl, rfl, rfl⟩

end AutoScience
